import Mathlib

/-!
# A shallow embedding of `GitHubSecAudit.py`

This file models the single-file GitHub security-audit script: the
identity / repository / membership collectors, the per-repository
CODEOWNERS and branch-protection checks, the report row shaping of
`generate_html_report`, and the `__main__` driver.

Upstream HTTP responses are supplied by a `World` value; each call to
`requests.get` is modelled as reading the corresponding field of the
world and counting one network call.  Python exceptions
(`raise_for_status`, `TypeError`) are modelled with `Except`; `exit`
codes and printed messages appear in the final `ProgOutcome`.
-/

/-- A Python runtime value as it flows through the report generator:
an `int` (the approval counts are non-negative), a `str`, or a `bool`. -/
inductive PyVal where
  | int (n : Nat)
  | str (s : String)
  | bool (b : Bool)
deriving DecidableEq, Repr

/-- A Python exception: an HTTP error raised by `raise_for_status`
(carrying the status code) or a `TypeError`. -/
inductive PyExc where
  | httpStatus (s : Nat)
  | typeError
deriving DecidableEq, Repr

/-- The decimal digit character for `d` (`d < 10`), code `48 + d`. -/
def pyDigitChar (d : Nat) : Char := Char.ofNat (48 + d)

/-- The decimal digits of `n`, most significant first, computed with
explicit fuel (one division by ten per unit of fuel; `n + 1` units
always suffice since `n / 10 < n` for `n ≥ 10`). -/
def pyDigitsAux (fuel : Nat) (n : Nat) : List Char :=
  match fuel with
  | 0 => []
  | fuel + 1 =>
    if n < 10 then [pyDigitChar n]
    else pyDigitsAux fuel (n / 10) ++ [pyDigitChar (n % 10)]

/-- The decimal digits of `n`, most significant first, as produced by
the Python `str` of a non-negative `int`. -/
def pyNatDigits (n : Nat) : List Char := pyDigitsAux (n + 1) n

/-- Python `str` of a non-negative `int`. -/
def pyStrOfNat (n : Nat) : String := String.mk (pyNatDigits n)

/-- Python `str.strip()`: remove leading and trailing whitespace
characters (the classification only ever tests whether the stripped
text is empty). -/
def pyStrip (s : String) : String :=
  String.mk (((s.data.dropWhile Char.isWhitespace).reverse.dropWhile Char.isWhitespace).reverse)

/-- Python `str` applied to a runtime value (used in the report by the
`str(current) == expected` comparison and by f-string interpolation). -/
def pyStr : PyVal → String
  | .int n => pyStrOfNat n
  | .str s => s
  | .bool b => if b then "True" else "False"

/-- The response to `GET /users/{org_name}`: status and the JSON
`type` field (`none` when the field is absent). -/
structure UserResponse where
  status : Nat
  utype : Option String
deriving DecidableEq, Repr

/-- One page of a paginated listing: the HTTP status and the items of
the JSON body. -/
structure Page (α : Type) where
  status : Nat
  items : List α
deriving DecidableEq, Repr

/-- A chain of pages for one listing URL.  The first page answers the
initial URL; each later page answers the `next` link of its
predecessor, and the last page of the chain carries no `next` link. -/
structure PageChain (α : Type) where
  first : Page α
  rest : List (Page α)
deriving DecidableEq, Repr

/-- All items carried anywhere in a page chain. -/
def PageChain.allItems (c : PageChain α) : List α :=
  c.first.items ++ (c.rest.map Page.items).flatten

/-- A member object from the members listing; the script only reads
its `login` field. -/
structure Member where
  login : String
deriving DecidableEq, Repr

/-- A repository object from the repository listing; the script only
reads its `name` field. -/
structure Repo where
  name : String
deriving DecidableEq, Repr

/-- The response to `GET /repos/{org}/{repo}`: status and the JSON
`default_branch` field (`none` when absent). -/
structure RepoInfoResponse where
  status : Nat
  default_branch : Option String
deriving DecidableEq, Repr

/-- The response to a contents probe
`GET /repos/{org}/{repo}/contents/{location}?ref={branch}`.
`content` models the JSON `content` field as already-decoded text:
`none` is an absent/null field, `some ""` an empty payload (the empty
base64 string), and `some s` with `s ≠ ""` a payload decoding to `s`;
the Python truthiness test on the raw base64 text is `content ≠ none`
and `content ≠ some ""`. -/
structure ContentResponse where
  status : Nat
  content : Option String
deriving DecidableEq, Repr

/-- A JSON object holding only an `enabled` flag (`none` = absent). -/
structure Toggle where
  enabled : Option Bool
deriving DecidableEq, Repr

/-- The `required_pull_request_reviews` sub-object. -/
structure PRReviews where
  required_approving_review_count : Option Nat
  dismiss_stale_reviews : Option Bool
deriving DecidableEq, Repr

/-- The JSON body of the branch-protection endpoint (fields `none`
when absent, mirroring dict `.get` with a `\x7b\x7d` default). -/
structure ProtectionData where
  required_pull_request_reviews : Option PRReviews
  required_signatures : Option Toggle
  enforce_admins : Option Toggle
  allow_force_pushes : Option Toggle
  allow_deletions : Option Toggle
  required_conversation_resolution : Option Toggle
deriving DecidableEq, Repr

/-- The response to the branch-protection endpoint. -/
structure ProtectionResponse where
  status : Nat
  data : ProtectionData
deriving DecidableEq, Repr

/-- The upstream responses for one repository: the repository
metadata lookup, the contents probe at each candidate location, and
the branch-protection lookup. -/
structure RepoEnv where
  repoInfo : RepoInfoResponse
  contents : String → ContentResponse
  protection : ProtectionResponse

/-- Everything one run of the script can observe: the credential
environment variable, the target name, and every upstream response. -/
structure World where
  token : Option String
  orgName : String
  userResp : UserResponse
  memberPages : PageChain Member
  adminPages : PageChain Member
  orgRepoPages : PageChain Repo
  userRepoPages : PageChain Repo
  repoEnv : String → RepoEnv

/-- A network-effect computation: its `Except` result together with
the number of `requests.get` calls it performed. -/
structure NetM (α : Type) where
  result : Except PyExc α
  calls : Nat
deriving Repr

/-- The monadic unit: no call, successful result. -/
def NetM.pure (a : α) : NetM α := ⟨.ok a, 0⟩

/-- Sequencing: on an exception the continuation never runs. -/
def NetM.bind (x : NetM α) (f : α → NetM β) : NetM β :=
  match x.result with
  | .error e => ⟨.error e, x.calls⟩
  | .ok a => ⟨(f a).result, x.calls + (f a).calls⟩

/-- One `requests.get`: returns the world-supplied response `r` and
counts one call. -/
def NetM.fetch (r : α) : NetM α := ⟨.ok r, 1⟩

/-- Raise a Python exception (no call of its own). -/
def NetM.throw (e : PyExc) : NetM α := ⟨.error e, 0⟩

/-- Model of `response.raise_for_status()`: raises exactly on 4xx/5xx. -/
def raise_for_status (status : Nat) : NetM Unit :=
  if 400 ≤ status then NetM.throw (.httpStatus status) else NetM.pure ()

/-- The union returned by `is_organization`: the string
`Permission Denied` or a boolean.  The string is truthy in Python. -/
inductive OrgAnswer where
  | permissionDenied
  | isOrg (b : Bool)
deriving DecidableEq, Repr

/-- Python truthiness of an `is_organization` result: the string
`Permission Denied` is non-empty hence truthy. -/
def OrgAnswer.truthy : OrgAnswer → Bool
  | .permissionDenied => true
  | .isOrg b => b

/-- Model of `is_organization(org_name)`: `GET /users/{org_name}`; 403 yields
the `Permission Denied` string, other 4xx/5xx raise, otherwise the
result is whether the `type` field equals `"Organization"`. -/
def is_organization (w : World) : NetM OrgAnswer :=
  NetM.bind (NetM.fetch w.userResp) fun r =>
    if r.status == 403 then NetM.pure .permissionDenied
    else
      NetM.bind (raise_for_status r.status) fun _ =>
        NetM.pure (.isOrg (r.utype == some "Organization"))

/-- Outcome of a paginated `while url:` loop: the accumulated items,
or the `Permission Denied` string returned on a 403 page. -/
inductive Collected (α : Type) where
  | items (xs : List α)
  | permissionDenied
deriving DecidableEq, Repr

/-- The `while url:` loop shared by `get_org_members` and
`get_org_repos`: fetch the page; on 403 return `Permission Denied`,
on any other 4xx/5xx raise, otherwise extend the accumulator and follow
the `next` link (the head of `rest`) until no link remains. -/
def fetchAll (acc : List α) (p : Page α) (rest : List (Page α)) : NetM (Collected α) :=
  NetM.bind (NetM.fetch p) fun r =>
    if r.status == 403 then NetM.pure .permissionDenied
    else
      NetM.bind (raise_for_status r.status) fun _ =>
        match rest with
        | [] => NetM.pure (.items (acc ++ r.items))
        | q :: qs => fetchAll (acc ++ r.items) q qs

/-- The union returned by `get_org_members`: a list of member objects
or the `Permission Denied` string. -/
inductive MembersVal where
  | list (ms : List Member)
  | str (s : String)
deriving DecidableEq, Repr

/-- Model of `get_org_members(org_name)` (lines 65–80): two `is_organization`
calls, then — for an organization — the paginated members listing. -/
def get_org_members (w : World) : NetM MembersVal :=
  NetM.bind (is_organization w) fun a1 =>
    if a1 == .permissionDenied then NetM.pure (.str "Permission Denied")
    else
      NetM.bind (is_organization w) fun a2 =>
        if a2.truthy == false then NetM.pure (.list [⟨w.orgName⟩])
        else
          NetM.bind (fetchAll [] w.memberPages.first w.memberPages.rest) fun c =>
            match c with
            | .permissionDenied => NetM.pure (.str "Permission Denied")
            | .items ms => NetM.pure (.list ms)

/-- The union returned by `get_org_codeowners`: a list of admin
logins or the `Permission Denied` string. -/
inductive OwnersVal where
  | list (xs : List String)
  | str (s : String)
deriving DecidableEq, Repr

/-- Model of `get_org_codeowners(org_name)` (lines 82–91): a single request to
the admin-filtered members URL — the `next` link of the response is
never read, so only `adminPages.first` is consumed. -/
def get_org_codeowners (w : World) : NetM OwnersVal :=
  NetM.bind (is_organization w) fun a =>
    if a.truthy == false then NetM.pure (.list [])
    else
      NetM.bind (NetM.fetch w.adminPages.first) fun r =>
        if r.status == 403 then NetM.pure (.str "Permission Denied")
        else
          NetM.bind (raise_for_status r.status) fun _ =>
            NetM.pure (.list (r.items.map Member.login))

/-- The union returned by `get_org_repos`: a list of repository
objects or the `Permission Denied` string. -/
inductive ReposVal where
  | list (rs : List Repo)
  | str (s : String)
deriving DecidableEq, Repr

/-- Model of `get_org_repos(org_name)` (lines 93–107): resolve the target
kind, pick the organization or user listing URL, then paginate. -/
def get_org_repos (w : World) : NetM ReposVal :=
  NetM.bind (is_organization w) fun a =>
    match a with
    | .permissionDenied => NetM.pure (.str "Permission Denied")
    | .isOrg b =>
      let chain := if b then w.orgRepoPages else w.userRepoPages
      NetM.bind (fetchAll [] chain.first chain.rest) fun c =>
        match c with
        | .permissionDenied => NetM.pure (.str "Permission Denied")
        | .items rs => NetM.pure (.list rs)

/-- Model of `get_default_branch(org_name, repo_name)` (lines 109–114): fetch
the repository metadata, `raise_for_status`, then read the
`default_branch` field with default `"main"`. -/
def get_default_branch (env : RepoEnv) : NetM String :=
  NetM.bind (NetM.fetch env.repoInfo) fun r =>
    NetM.bind (raise_for_status r.status) fun _ =>
      NetM.pure (r.default_branch.getD "main")

/-- The ordered candidate locations `locations_to_check`. -/
def locations_to_check : List String :=
  [".github/CODEOWNERS", "CODEOWNERS", "docs/CODEOWNERS"]

/-- The error status text built for an unexpected contents status. -/
def errorChecking (location branch : String) : String :=
  "Error Checking " ++ location ++ " for " ++ branch ++ " branch"

/-- The candidate loop of `check_codeowners_file` (lines 121–136):
a 200 response whose `content` field is truthy classifies and breaks;
403 and other unexpected statuses classify and break; 404 — and a 200
response with falsy `content` — fall through to the next location;
an exhausted list keeps the initial `"Not Set (File Missing)"`. -/
def probeLoop (contents : String → ContentResponse) (branch : String) :
    List String → NetM String
  | [] => NetM.pure "Not Set (File Missing)"
  | location :: rest =>
    NetM.bind (NetM.fetch (contents location)) fun r =>
      if r.status == 200 then
        match r.content with
        | some c =>
          if c ≠ "" then
            NetM.pure (if pyStrip c ≠ "" then "Set and Valid" else "Set but Invalid (Empty)")
          else probeLoop contents branch rest
        | none => probeLoop contents branch rest
      else if r.status == 403 then NetM.pure "Permission Denied"
      else if r.status != 404 then NetM.pure (errorChecking location branch)
      else probeLoop contents branch rest

/-- Model of `check_codeowners_file(org_name, repo_name)` (lines 116–138):
resolve the default branch (which may raise), probe the candidate
locations, and return the dict `\x7bdefault_branch: branch_status\x7d`
as a pair. -/
def check_codeowners_file (env : RepoEnv) : NetM (String × String) :=
  NetM.bind (get_default_branch env) fun branch =>
    NetM.bind (probeLoop env.contents branch locations_to_check) fun status =>
      NetM.pure (branch, status)

/-- The dict built by `check_branch_protection` on a given status:
on 200 the eight-key settings record extracted from the body, else a
one-key sentinel dict keyed by the branch name. -/
def protection_classify (branch : String) (r : ProtectionResponse) :
    List (String × PyVal) :=
  if r.status == 200 then
    let pr_reviews := r.data.required_pull_request_reviews.getD ⟨none, none⟩
    let required_approvals := pr_reviews.required_approving_review_count.getD 0
    let dismiss_stale_reviews :=
      if pr_reviews.dismiss_stale_reviews.getD false then "Enabled" else "Disabled"
    let signed_commits :=
      if (r.data.required_signatures.getD ⟨none⟩).enabled.getD false then "Enabled" else "Disabled"
    let enforce_admins :=
      if (r.data.enforce_admins.getD ⟨none⟩).enabled.getD false then "Enabled" else "Disabled"
    let allow_force_pushes :=
      if (r.data.allow_force_pushes.getD ⟨none⟩).enabled.getD false then "Enabled" else "Disabled"
    let allow_deletions :=
      if (r.data.allow_deletions.getD ⟨none⟩).enabled.getD false then "Enabled" else "Disabled"
    let conversation_resolution :=
      if (r.data.required_conversation_resolution.getD ⟨none⟩).enabled.getD false
      then "Enabled" else "Disabled"
    [("Branch", .str branch),
     ("PR Approvals Required", .int required_approvals),
     ("Dismiss Stale Reviews", .str dismiss_stale_reviews),
     ("Signed Commits", .str signed_commits),
     ("Enforce Admins", .str enforce_admins),
     ("Allow Force Pushes", .str allow_force_pushes),
     ("Allow Deletions", .str allow_deletions),
     ("Required Conversation Resolution", .str conversation_resolution)]
  else if r.status == 404 then [(branch, .str "No Protection")]
  else if r.status == 403 then [(branch, .str "Permission Denied")]
  else [(branch, .str ("Error Checking Protection (" ++ pyStrOfNat r.status ++ ")"))]

/-- Model of `check_branch_protection(org_name, repo_name)` (lines 140–175):
resolve the default branch (which may raise), fetch the protection
settings, classify. -/
def check_branch_protection (env : RepoEnv) : NetM (List (String × PyVal)) :=
  NetM.bind (get_default_branch env) fun branch =>
    NetM.bind (NetM.fetch env.protection) fun r =>
      NetM.pure (protection_classify branch r)

/-- Model of `get_branch_protection_summary(org_name, repos)` (lines 177–185)
together with the dict insertion of `protection_summary[repo_name]`:
a Python dict keeps one entry per key, the last assignment winning, placed
at the position of the first occurrence. -/
def dictInsert (d : List (String × α)) (k : String) (v : α) : List (String × α) :=
  if d.any (fun kv => kv.1 == k) then
    d.map (fun kv => if kv.1 == k then (k, v) else kv)
  else d ++ [(k, v)]

/-- Number of entries of an association list at a key. -/
def countKey (d : List (String × α)) (k : String) : Nat :=
  (d.filter (fun kv => kv.1 == k)).length

/-- Python dict `.get(k, dflt)`. -/
def dictGet (d : List (String × PyVal)) (k : String) (dflt : PyVal) : PyVal :=
  match d.find? (fun kv => kv.1 == k) with
  | some kv => kv.2
  | none => dflt

/-- The shared shape of a per-repository finding map: run one check
per repository in order and store its result under the name of the
repository (Python dict assignment / comprehension semantics). -/
def buildSummary (check : String → NetM β) :
    List Repo → List (String × β) → NetM (List (String × β))
  | [], acc => NetM.pure acc
  | r :: rest, acc =>
    NetM.bind (check r.name) fun f =>
      buildSummary check rest (dictInsert acc r.name f)

/-- The dict comprehension of line 372,
`\x7brepo[name]: check_codeowners_file(ORG_NAME, repo[name]) for repo in repos\x7d`. -/
def buildCodeownersStatus (w : World) (rs : List Repo) :
    NetM (List (String × (String × String))) :=
  buildSummary (fun nm => check_codeowners_file (w.repoEnv nm)) rs []

/-- The loop of `get_branch_protection_summary` (lines 177–185). -/
def buildProtectionSummary (w : World) (rs : List Repo) :
    NetM (List (String × List (String × PyVal))) :=
  buildSummary (fun nm => check_branch_protection (w.repoEnv nm)) rs []

/-- One row of the detailed report table. -/
structure Row where
  repo : String
  config : String
  passed : Bool
  current : String
  expected : String
deriving DecidableEq, Repr

/-- Python `current >= 2` inside the status test: defined on `int`
operands; on any other operand Python 3 raises a `TypeError`. -/
def pyGeTwo : PyVal → Except PyExc Bool
  | .int n => .ok (decide (2 ≤ n))
  | _ => .error .typeError

/-- The status test of lines 326–328,
`str(current) == expected or (config == "PR Approvals Required" and current >= 2)`,
with the Python short-circuit evaluation. -/
def rowStatus (config : String) (current : PyVal) (expected : String) :
    Except PyExc Bool :=
  if pyStr current == expected then .ok true
  else if config == "PR Approvals Required" then pyGeTwo current
  else .ok false

/-- The displayed current value of a row (line 334):
`Enabled if current is True else Disabled if current is False else current`,
the fallback rendered through f-string `str`. -/
def displayVal : PyVal → String
  | .bool true => "Enabled"
  | .bool false => "Disabled"
  | v => pyStr v

/-- The `checks` list of lines 316–323 for the protection dict of
one repository. -/
def checksFor (info : List (String × PyVal)) : List (String × PyVal × String) :=
  [("PR Approvals Required", dictGet info "PR Approvals Required" (.int 0), "2+"),
   ("Signed Commits", dictGet info "Signed Commits" (.bool false), "Enabled"),
   ("Enforce Admins", dictGet info "Enforce Admins" (.bool false), "Enabled"),
   ("Allow Force Pushes", dictGet info "Allow Force Pushes" (.bool false), "Disabled"),
   ("Allow Deletions", dictGet info "Allow Deletions" (.bool false), "Disabled"),
   ("Required Conversation Resolution",
    dictGet info "Required Conversation Resolution" (.bool false), "Enabled")]

/-- The six protection rows emitted for one repository
(lines 325–337); evaluating the status of a row may raise. -/
def protectionRows (repo : String) (info : List (String × PyVal)) :
    Except PyExc (List Row) :=
  (checksFor info).mapM fun cce =>
    match rowStatus cce.1 cce.2.1 cce.2.2 with
    | .error e => .error e
    | .ok passed => .ok ⟨repo, cce.1, passed, displayVal cce.2.1, cce.2.2⟩

/-- The CODEOWNERS row emitted for one repository (lines 339–351). -/
def codeownersRow (repo : String) (status : String × String) : Row :=
  ⟨repo, "CODEOWNERS Status", status.2 == "Set and Valid", status.2, "Set and Valid"⟩

/-- Python `len(members)` in the summary table (line 264): `len` of a list
of member objects or of the `Permission Denied` string. -/
def pyLenMembers : MembersVal → Nat
  | .list ms => ms.length
  | .str s => s.length

/-- Python `len(codeowners)` in the summary table (line 265). -/
def pyLenOwners : OwnersVal → Nat
  | .list xs => xs.length
  | .str s => s.length

/-- The members modal items (line 285),
`f"<li>\x7bmember[login]\x7d</li>" for member in members`: iterating a
string yields its characters and indexing a character (a `str`) with
`login` raises a `TypeError`. -/
def memberItems : MembersVal → Except PyExc (List String)
  | .list ms => .ok (ms.map Member.login)
  | .str s => if s == "" then .ok [] else .error .typeError

/-- The code-owners modal items (line 296), `f"<li>\x7bowner\x7d</li>"
for owner in codeowners`: a string iterates into its characters with
no indexing, so it never raises. -/
def ownerItems : OwnersVal → List String
  | .list xs => xs
  | .str s => s.data.map (fun c => String.mk [c])

/-- The data content of the rendered report artifact. -/
structure Report where
  totalRepos : Nat
  totalMembers : Nat
  totalOwners : Nat
  repoNames : List String
  members : List String
  owners : List String
  rows : List Row
deriving DecidableEq, Repr

/-- Model of `generate_html_report` (lines 187–362) as a data projection: the
summary counts and modal lists are interpolated first (the member
modal may raise a `TypeError`), then the protection rows and the
CODEOWNERS rows; the artifact is written only if nothing raised. -/
def generate_html_report (members : MembersVal) (codeowners : OwnersVal)
    (codeowners_status : List (String × (String × String)))
    (branch_protection_summary : List (String × List (String × PyVal))) :
    Except PyExc Report :=
  match memberItems members with
  | .error e => .error e
  | .ok ms =>
    match branch_protection_summary.mapM (fun rp => protectionRows rp.1 rp.2) with
    | .error e => .error e
    | .ok rowBlocks =>
      .ok
        { totalRepos := branch_protection_summary.length
          totalMembers := pyLenMembers members
          totalOwners := pyLenOwners codeowners
          repoNames := branch_protection_summary.map Prod.fst
          members := ms
          owners := ownerItems codeowners
          rows := rowBlocks.flatten ++ codeowners_status.map (fun rs => codeownersRow rs.1 rs.2) }

/-- Model of `check_github_token` truthiness: `not token` is true for an unset
variable (`None`) and for the empty string. -/
def tokenOk : Option String → Bool
  | none => false
  | some s => s != ""

/-- The messages printed by `check_github_token` before `exit(1)`. -/
def tokenErrorLines : List String :=
  ["Error: GitHub token not set in environment variables.",
   "Please set the GITHUB_TOKEN variable before running this script.",
   "For example:",
   "  - On Linux/Mac: export GITHUB_TOKEN=\x27your_token_here\x27",
   "  - On Windows Command Prompt: set GITHUB_TOKEN=your_token_here",
   "  - On Windows PowerShell: $env:GITHUB_TOKEN=\"your_token_here\""]

/-- How the `__main__` block ends when nothing raises: the denial
message path or a written report. -/
inductive MainEnd where
  | denied
  | reported (r : Report)
deriving DecidableEq, Repr

/-- The `__main__` block (lines 365–375): collect repositories; on
the `Permission Denied` string print the denial; otherwise collect
members and code owners, build both finding maps, and generate the
report (whose interpolation may raise). -/
def mainFlow (w : World) : NetM MainEnd :=
  NetM.bind (get_org_repos w) fun repos =>
    match repos with
    | .str _ => NetM.pure .denied
    | .list rs =>
      NetM.bind (get_org_members w) fun members =>
        NetM.bind (get_org_codeowners w) fun codeowners =>
          NetM.bind (buildCodeownersStatus w rs) fun cs =>
            NetM.bind (buildProtectionSummary w rs) fun bps =>
              match generate_html_report members codeowners cs bps with
              | .error e => NetM.throw e
              | .ok rep => NetM.pure (.reported rep)

/-- The observable outcome of one process run. -/
structure ProgOutcome where
  exitCode : Nat
  report : Option Report
  printed : List String
  crashed : Bool
  networkCalls : Nat
deriving DecidableEq, Repr

/-- The whole process: module initialisation checks the token and
calls `exit(1)` before any request is made; then the `__main__` block
runs, an uncaught exception ending the process with code 1 and no
artifact. -/
def runProgram (w : World) : ProgOutcome :=
  if tokenOk w.token == false then
    { exitCode := 1, report := none, printed := tokenErrorLines,
      crashed := false, networkCalls := 0 }
  else
    let m := mainFlow w
    match m.result with
    | .error _ =>
      { exitCode := 1, report := none, printed := [], crashed := true,
        networkCalls := m.calls }
    | .ok .denied =>
      { exitCode := 0, report := none,
        printed := ["Error: Access to repositories denied."],
        crashed := false, networkCalls := m.calls }
    | .ok (.reported rep) =>
      { exitCode := 0, report := some rep,
        printed := ["HTML report saved to " ++ w.orgName ++ "_audit_report.html"],
        crashed := false, networkCalls := m.calls }

/-- A protection body with every field absent. -/
def emptyProtData : ProtectionData := ⟨none, none, none, none, none, none⟩

/-- A benign per-repository environment: metadata lookup succeeds
with default branch `main`, no CODEOWNERS candidate exists, no
protection rule is configured. -/
def baseRepoEnv : RepoEnv where
  repoInfo := ⟨200, some "main"⟩
  contents := fun _ => ⟨404, none⟩
  protection := ⟨404, emptyProtData⟩

/-- A benign world: credential set, the target is an organization
with one member, one admin and one repository, all listings
single-page and successful. -/
def baseWorld : World where
  token := some "t"
  orgName := "acme"
  userResp := ⟨200, some "Organization"⟩
  memberPages := ⟨⟨200, [⟨"alice"⟩]⟩, []⟩
  adminPages := ⟨⟨200, [⟨"alice"⟩]⟩, []⟩
  orgRepoPages := ⟨⟨200, [⟨"repo1"⟩]⟩, []⟩
  userRepoPages := ⟨⟨200, []⟩, []⟩
  repoEnv := fun _ => baseRepoEnv

/-- The benign world except that every repository metadata lookup
answers 500, so `get_default_branch` raises. -/
def lookupFailWorld : World :=
  { baseWorld with repoEnv := fun _ => { baseRepoEnv with repoInfo := ⟨500, none⟩ } }

/-- Contents probes: the first candidate answers 200 with an absent
`content` field, the others answer 404. -/
def emptyContentFetch : String → ContentResponse :=
  fun location => if location == ".github/CODEOWNERS" then ⟨200, none⟩ else ⟨404, none⟩

/-- Contents probes: the first candidate answers 200 with an empty
`content` field, the second carries real content, the third 404. -/
def skipThenContentFetch : String → ContentResponse :=
  fun location =>
    if location == ".github/CODEOWNERS" then ⟨200, some ""⟩
    else if location == "CODEOWNERS" then ⟨200, some "* @alice"⟩
    else ⟨404, none⟩

/-- Contents probes that always answer 403. -/
def pdContentFetch : String → ContentResponse := fun _ => ⟨403, none⟩

/-- The benign world except that the admin listing spans two pages. -/
def twoPageAdminWorld : World :=
  { baseWorld with adminPages := ⟨⟨200, [⟨"ann"⟩]⟩, [⟨200, [⟨"bob"⟩]⟩]⟩ }

/-- The benign world except that the members listing spans two
pages. -/
def twoPageMemberWorld : World :=
  { baseWorld with memberPages := ⟨⟨200, [⟨"ann"⟩]⟩, [⟨200, [⟨"bob"⟩]⟩]⟩ }

/-- The benign world except that the identity lookup answers 403. -/
def deniedReposWorld : World := { baseWorld with userResp := ⟨403, none⟩ }

/-- The benign world except that the members listing answers 403. -/
def deniedMembersWorld : World :=
  { baseWorld with memberPages := ⟨⟨403, []⟩, []⟩ }

/-- The benign world with two repositories. -/
def twoRepoWorld : World :=
  { baseWorld with orgRepoPages := ⟨⟨200, [⟨"r1"⟩, ⟨"r2"⟩]⟩, []⟩ }

/-- The benign world with the credential variable unset. -/
def noTokenWorld : World := { baseWorld with token := none }

/-- The configuration names of the six evaluated protection rows. -/
def checkConfigKeys : List String :=
  ["PR Approvals Required", "Signed Commits", "Enforce Admins",
   "Allow Force Pushes", "Allow Deletions", "Required Conversation Resolution"]

/-- The report generated for one repository whose CODEOWNERS file is
missing at every candidate and whose default branch has no protection
rule configured. -/
def scenarioReport : Except PyExc Report :=
  generate_html_report (.list []) (.list [])
    [("repo2", ("main", "Not Set (File Missing)"))]
    [("repo2", [("main", PyVal.str "No Protection")])]

/-- The rows the report generator renders in that scenario. -/
def scenarioRows : List Row :=
  [⟨"repo2", "PR Approvals Required", false, "0", "2+"⟩,
   ⟨"repo2", "Signed Commits", false, "Disabled", "Enabled"⟩,
   ⟨"repo2", "Enforce Admins", false, "Disabled", "Enabled"⟩,
   ⟨"repo2", "Allow Force Pushes", false, "Disabled", "Disabled"⟩,
   ⟨"repo2", "Allow Deletions", false, "Disabled", "Disabled"⟩,
   ⟨"repo2", "Required Conversation Resolution", false, "Disabled", "Enabled"⟩,
   ⟨"repo2", "CODEOWNERS Status", false, "Not Set (File Missing)", "Set and Valid"⟩]

theorem NetM.result_bind_ok {α β : Type} {x : NetM α} {a : α}
    (h : x.result = .ok a) (f : α → NetM β) :
    (NetM.bind x f).result = (f a).result := by
  simp [NetM.bind, h]

theorem NetM.result_bind_error {α β : Type} {x : NetM α} {e : PyExc}
    (h : x.result = .error e) (f : α → NetM β) :
    (NetM.bind x f).result = .error e := by
  simp [NetM.bind, h]

theorem pyDigitsAux_digits (fuel : Nat) :
    ∀ n c, c ∈ pyDigitsAux fuel n → ∃ d, d < 10 ∧ c = pyDigitChar d := by
  induction fuel with
  | zero => intro n c h; simp [pyDigitsAux] at h
  | succ fuel ih =>
    intro n c h
    by_cases h10 : n < 10
    · simp [pyDigitsAux, h10] at h
      exact ⟨n, h10, h⟩
    · simp [pyDigitsAux, h10] at h
      rcases h with h | h
      · exact ih _ _ h
      · exact ⟨n % 10, Nat.mod_lt _ (by omega), h⟩

theorem pyStrOfNat_ne_two_plus (n : Nat) : pyStrOfNat n ≠ "2+" := by
  intro h
  have hd : pyNatDigits n = ['2', '+'] := congrArg String.data h
  have hmem : '+' ∈ pyNatDigits n := by rw [hd]; simp
  obtain ⟨d, hd10, hc⟩ := pyDigitsAux_digits _ _ _ hmem
  interval_cases d <;> exact absurd hc (by decide)

/-- Claim C3 (confirmed).  A repository row evaluating the
PR-approvals-required attribute is classified pass exactly when the
observed required-approvals count is at least 2; in particular 0 and
1 are classified fail while 2 and 5 are classified pass. -/
theorem pr_approvals_pass_iff_at_least_two :
    (∀ n : Nat, (rowStatus "PR Approvals Required" (.int n) "2+" = .ok true ↔ 2 ≤ n)) ∧
    rowStatus "PR Approvals Required" (.int 0) "2+" = .ok false ∧
    rowStatus "PR Approvals Required" (.int 1) "2+" = .ok false ∧
    rowStatus "PR Approvals Required" (.int 2) "2+" = .ok true ∧
    rowStatus "PR Approvals Required" (.int 5) "2+" = .ok true := by
  refine ⟨fun n => ?_, rfl, rfl, rfl, rfl⟩
  have hne : (pyStr (.int n) == "2+") = false :=
    beq_eq_false_iff_ne.mpr (pyStrOfNat_ne_two_plus n)
  simp [rowStatus, hne, pyGeTwo]

theorem errorCheckingProt_ne_noProtection (s : String) :
    "Error Checking Protection (" ++ s ++ ")" ≠ "No Protection" := by
  intro h
  have hl := congrArg String.length h
  simp [String.length_append] at hl
  have h1 : ("Error Checking Protection (" : String).length = 27 := rfl
  have h2 : (")" : String).length = 1 := rfl
  have h3 : ("No Protection" : String).length = 13 := rfl
  omega

theorem errorCheckingProt_ne_permissionDenied (s : String) :
    "Error Checking Protection (" ++ s ++ ")" ≠ "Permission Denied" := by
  intro h
  have hl := congrArg String.length h
  simp [String.length_append] at hl
  have h1 : ("Error Checking Protection (" : String).length = 27 := rfl
  have h2 : (")" : String).length = 1 := rfl
  have h3 : ("Permission Denied" : String).length = 17 := rfl
  omega

/-- Claim C6 (confirmed).  The branch-protection check distinguishes
three mutually exclusive terminal cases: 404 yields the
`No Protection` state, 403 yields the `Permission Denied` state, and
any other non-success status yields a generic error state carrying
that status code; the three state texts are pairwise distinct. -/
theorem branch_protection_states_distinct (branch : String) (r : ProtectionResponse) :
    (r.status = 404 → protection_classify branch r = [(branch, .str "No Protection")]) ∧
    (r.status = 403 → protection_classify branch r = [(branch, .str "Permission Denied")]) ∧
    (r.status ≠ 200 → r.status ≠ 404 → r.status ≠ 403 →
      protection_classify branch r =
        [(branch, .str ("Error Checking Protection (" ++ pyStrOfNat r.status ++ ")"))]) ∧
    ("No Protection" : String) ≠ "Permission Denied" ∧
    (∀ s : String,
      "Error Checking Protection (" ++ s ++ ")" ≠ "No Protection" ∧
      "Error Checking Protection (" ++ s ++ ")" ≠ "Permission Denied") := by
  refine ⟨fun h => ?_, fun h => ?_, fun h200 h404 h403 => ?_, by decide,
    fun s => ⟨errorCheckingProt_ne_noProtection s, errorCheckingProt_ne_permissionDenied s⟩⟩
  · simp [protection_classify, h]
  · simp [protection_classify, h]
  · simp [protection_classify, beq_eq_false_iff_ne.mpr h200,
      beq_eq_false_iff_ne.mpr h404, beq_eq_false_iff_ne.mpr h403]

/-- Witness for the branch-protection state theorem at the three
concrete statuses 404, 403 and 500. -/
theorem branch_protection_states_distinct_witness :
    protection_classify "main" ⟨404, emptyProtData⟩ = [("main", .str "No Protection")] ∧
    protection_classify "main" ⟨403, emptyProtData⟩ = [("main", .str "Permission Denied")] ∧
    protection_classify "main" ⟨500, emptyProtData⟩ =
      [("main", .str ("Error Checking Protection (" ++ pyStrOfNat 500 ++ ")"))] :=
  ⟨(branch_protection_states_distinct "main" ⟨404, emptyProtData⟩).1 rfl,
   (branch_protection_states_distinct "main" ⟨403, emptyProtData⟩).2.1 rfl,
   (branch_protection_states_distinct "main" ⟨500, emptyProtData⟩).2.2.1
     (by decide) (by decide) (by decide)⟩

theorem probeLoop_result_ok (contents : String → ContentResponse) (branch : String) :
    ∀ locs : List String, ∃ s, (probeLoop contents branch locs).result = .ok s := by
  intro locs
  induction locs with
  | nil => exact ⟨_, rfl⟩
  | cons loc rest ih =>
    simp only [probeLoop]
    rw [NetM.result_bind_ok rfl]
    split
    · split
      · split
        · exact ⟨_, rfl⟩
        · exact ih
      · exact ih
    · split
      · exact ⟨_, rfl⟩
      · split
        · exact ⟨_, rfl⟩
        · exact ih

theorem raise_for_status_ok {s : Nat} (h : s < 400) :
    (raise_for_status s).result = .ok () := by
  simp [raise_for_status, NetM.pure, Nat.not_le.mpr h]

theorem get_default_branch_ok (env : RepoEnv) (h : env.repoInfo.status < 400) :
    (get_default_branch env).result = .ok (env.repoInfo.default_branch.getD "main") := by
  simp only [get_default_branch]
  rw [NetM.result_bind_ok rfl, NetM.result_bind_ok (raise_for_status_ok h)]
  rfl

/-- Claim C1 (corrected).  Whenever the per-repository default-branch
lookup succeeds, every outcome of candidate probing and of the
protection fetch is captured as a finding — neither check can raise;
the lookup itself, however, raises on a non-success response (see the
counterexample theorem). -/
theorem check_failures_become_findings (env : RepoEnv)
    (h : env.repoInfo.status < 400) :
    (∃ f, (check_codeowners_file env).result = .ok f) ∧
    (∃ d, (check_branch_protection env).result = .ok d) := by
  have hb := get_default_branch_ok env h
  constructor
  · obtain ⟨s, hs⟩ := probeLoop_result_ok env.contents
      (env.repoInfo.default_branch.getD "main") locations_to_check
    refine ⟨(env.repoInfo.default_branch.getD "main", s), ?_⟩
    simp only [check_codeowners_file]
    rw [NetM.result_bind_ok hb, NetM.result_bind_ok hs]
    rfl
  · refine ⟨protection_classify (env.repoInfo.default_branch.getD "main") env.protection, ?_⟩
    simp only [check_branch_protection]
    rw [NetM.result_bind_ok hb, NetM.result_bind_ok rfl]
    rfl

/-- Witness for the finding-capture theorem at a concrete benign
environment. -/
theorem check_failures_become_findings_witness :
    (0 : Nat) < 400 ∧
    ((∃ f, (check_codeowners_file baseRepoEnv).result = .ok f) ∧
     (∃ d, (check_branch_protection baseRepoEnv).result = .ok d)) :=
  ⟨by decide, check_failures_become_findings baseRepoEnv (by decide)⟩

/-- Claim C1 counterexample: with a 500 answer to the default-branch
lookup, both checks raise instead of producing a finding state, and
the whole run aborts with an uncaught exception and no report. -/
theorem default_branch_error_aborts_run :
    (check_codeowners_file (lookupFailWorld.repoEnv "repo1")).result
      = .error (.httpStatus 500) ∧
    (check_branch_protection (lookupFailWorld.repoEnv "repo1")).result
      = .error (.httpStatus 500) ∧
    (runProgram lookupFailWorld).crashed = true ∧
    (runProgram lookupFailWorld).report = none ∧
    (runProgram lookupFailWorld).exitCode = 1 :=
  ⟨rfl, rfl, rfl, rfl, rfl⟩

/-- Claim C2 (corrected).  Candidate probing is strictly sequential
over `.github/CODEOWNERS`, `CODEOWNERS`, `docs/CODEOWNERS`: a 200
response with a non-empty `content` field, a permission error, and
any other unexpected status are each terminal (exactly one candidate
consulted, no later candidate probed); a not-found — and also a 200
response without a usable `content` field — moves probing to the next
candidate; an exhausted candidate list yields
`Not Set (File Missing)`, in particular when every candidate answers
not-found. -/
theorem codeowners_probe_short_circuit :
    locations_to_check = [".github/CODEOWNERS", "CODEOWNERS", "docs/CODEOWNERS"] ∧
    (∀ (contents : String → ContentResponse) (branch location : String) (rest : List String),
      ((contents location).status = 200 →
        ∀ c, (contents location).content = some c → c ≠ "" →
          probeLoop contents branch (location :: rest) =
            ⟨.ok (if pyStrip c ≠ "" then "Set and Valid" else "Set but Invalid (Empty)"), 1⟩) ∧
      ((contents location).status = 403 →
        probeLoop contents branch (location :: rest) = ⟨.ok "Permission Denied", 1⟩) ∧
      ((contents location).status ≠ 200 → (contents location).status ≠ 403 →
        (contents location).status ≠ 404 →
        probeLoop contents branch (location :: rest) =
          ⟨.ok (errorChecking location branch), 1⟩) ∧
      ((contents location).status = 404 →
        (probeLoop contents branch (location :: rest)).result =
          (probeLoop contents branch rest).result) ∧
      ((contents location).status = 200 →
        ((contents location).content = none ∨ (contents location).content = some "") →
        (probeLoop contents branch (location :: rest)).result =
          (probeLoop contents branch rest).result)) ∧
    (∀ (contents : String → ContentResponse) (branch : String) (locs : List String),
      (∀ l ∈ locs, (contents l).status = 404) →
      (probeLoop contents branch locs).result = .ok "Not Set (File Missing)") := by
  refine ⟨rfl, fun contents branch location rest => ⟨?_, ?_, ?_, ?_, ?_⟩, ?_⟩
  · intro h200 c hc hcne
    simp [probeLoop, NetM.bind, NetM.fetch, NetM.pure, h200, hc, hcne]
  · intro h403
    simp [probeLoop, NetM.bind, NetM.fetch, NetM.pure, h403]
  · intro h200 h403 h404
    have e1 : ((contents location).status == 200) = false := beq_eq_false_iff_ne.mpr h200
    have e2 : ((contents location).status == 403) = false := beq_eq_false_iff_ne.mpr h403
    have e3 : ((contents location).status != 404) = true := by
      simp [bne_iff_ne]
      exact h404
    simp [probeLoop, NetM.bind, NetM.fetch, NetM.pure, e1, e2, e3]
  · intro h404
    simp only [probeLoop]
    rw [NetM.result_bind_ok rfl]
    simp [h404]
  · intro h200 hc
    simp only [probeLoop]
    rw [NetM.result_bind_ok rfl]
    rcases hc with hc | hc <;> simp [h200, hc]
  · intro contents branch locs hall
    induction locs with
    | nil => rfl
    | cons loc rest ih =>
      have h404 := hall loc (by simp)
      simp only [probeLoop]
      rw [NetM.result_bind_ok rfl]
      simp only [h404]
      norm_num
      exact ih (fun l hl => hall l (by simp [hl]))

/-- Witness for the probe short-circuit theorem: a 403 at the single
candidate consulted is terminal after one request. -/
theorem codeowners_probe_short_circuit_witness :
    probeLoop pdContentFetch "main" ("CODEOWNERS" :: []) = ⟨.ok "Permission Denied", 1⟩ :=
  (codeowners_probe_short_circuit.2.1 pdContentFetch "main" "CODEOWNERS" []).2.1 rfl

/-- Claim C2 counterexample: a 200 response without a usable `content`
field is not terminal.  With the first candidate answering 200
(absent `content`) and the rest 404, all three candidates are probed
and the classification is `Not Set (File Missing)` although not every
candidate answered not-found; with real content at the second
candidate, the classification comes from a candidate probed after the
non-not-found first one. -/
theorem empty_content_response_not_terminal :
    (emptyContentFetch ".github/CODEOWNERS").status = 200 ∧
    (probeLoop emptyContentFetch "main" locations_to_check).result
      = .ok "Not Set (File Missing)" ∧
    (probeLoop emptyContentFetch "main" locations_to_check).calls = 3 ∧
    (skipThenContentFetch ".github/CODEOWNERS").status = 200 ∧
    (probeLoop skipThenContentFetch "main" locations_to_check).result = .ok "Set and Valid" ∧
    (probeLoop skipThenContentFetch "main" locations_to_check).calls = 2 :=
  ⟨rfl, rfl, rfl, rfl, rfl, rfl⟩

theorem fetchAll_result_ok {α : Type} :
    ∀ (rest : List (Page α)) (p : Page α) (acc : List α),
      p.status = 200 → (∀ q ∈ rest, q.status = 200) →
      (fetchAll acc p rest).result =
        .ok (.items (acc ++ p.items ++ (rest.map Page.items).flatten)) := by
  intro rest
  induction rest with
  | nil =>
    intro p acc hp _
    simp [fetchAll, NetM.bind, NetM.fetch, NetM.pure, raise_for_status, hp]
  | cons q qs ih =>
    intro p acc hp hq
    have hstep : (fetchAll acc p (q :: qs)).result = (fetchAll (acc ++ p.items) q qs).result := by
      conv_lhs => rw [fetchAll.eq_def]
      rw [NetM.result_bind_ok rfl]
      simp [hp, raise_for_status, NetM.bind, NetM.pure]
    rw [hstep, ih q (acc ++ p.items) (hq q (by simp)) (fun x hx => hq x (by simp [hx]))]
    simp [List.append_assoc]

theorem is_organization_result (w : World) (h : w.userResp.status = 200) :
    (is_organization w).result = .ok (.isOrg (w.userResp.utype == some "Organization")) := by
  simp only [is_organization]
  rw [NetM.result_bind_ok rfl]
  simp [h, raise_for_status, NetM.bind, NetM.pure]

/-- Claim C4 (corrected).  The repository and member collectors follow
next-page pagination links until exhausted and return every item of
every page; completeness of the admin code-owner collector fails (see
the counterexample theorem), since it never reads the `next` link. -/
theorem repo_member_collectors_complete (w : World)
    (hu : w.userResp.status = 200) :
    (w.userResp.utype = some "Organization" →
      w.memberPages.first.status = 200 → (∀ q ∈ w.memberPages.rest, q.status = 200) →
      (get_org_members w).result = .ok (.list w.memberPages.allItems)) ∧
    (w.userResp.utype = some "Organization" →
      w.orgRepoPages.first.status = 200 → (∀ q ∈ w.orgRepoPages.rest, q.status = 200) →
      (get_org_repos w).result = .ok (.list w.orgRepoPages.allItems)) ∧
    (w.userResp.utype ≠ some "Organization" →
      w.userRepoPages.first.status = 200 → (∀ q ∈ w.userRepoPages.rest, q.status = 200) →
      (get_org_repos w).result = .ok (.list w.userRepoPages.allItems)) ∧
    (∀ (c : PageChain Repo) (pg : Page Repo) (x : Repo),
      pg ∈ c.rest → x ∈ pg.items → x ∈ c.allItems) ∧
    (∀ (c : PageChain Member) (pg : Page Member) (x : Member),
      pg ∈ c.rest → x ∈ pg.items → x ∈ c.allItems) := by
  refine ⟨?_, ?_, ?_, ?_, ?_⟩
  · intro hO hp hq
    have hb : (w.userResp.utype == some "Organization") = true := beq_iff_eq.mpr hO
    simp only [get_org_members]
    rw [NetM.result_bind_ok (is_organization_result w hu)]
    simp only [hb]
    have e1 : (OrgAnswer.isOrg true == OrgAnswer.permissionDenied) = false := by decide
    simp only [e1, Bool.false_eq_true, if_false, reduceIte]
    rw [NetM.result_bind_ok (is_organization_result w hu)]
    simp only [hb]
    have e2 : (OrgAnswer.truthy (.isOrg true) == false) = false := by decide
    simp only [e2, Bool.false_eq_true, if_false, reduceIte]
    rw [NetM.result_bind_ok (fetchAll_result_ok w.memberPages.rest w.memberPages.first [] hp hq)]
    simp [NetM.pure, PageChain.allItems]
  · intro hO hp hq
    have hb : (w.userResp.utype == some "Organization") = true := beq_iff_eq.mpr hO
    simp only [get_org_repos]
    rw [NetM.result_bind_ok (is_organization_result w hu)]
    simp only [hb, if_true, reduceIte]
    rw [NetM.result_bind_ok (fetchAll_result_ok w.orgRepoPages.rest w.orgRepoPages.first [] hp hq)]
    simp [NetM.pure, PageChain.allItems]
  · intro hO hp hq
    have hb : (w.userResp.utype == some "Organization") = false := beq_eq_false_iff_ne.mpr hO
    simp only [get_org_repos]
    rw [NetM.result_bind_ok (is_organization_result w hu)]
    simp only [hb, Bool.false_eq_true, if_false, reduceIte]
    rw [NetM.result_bind_ok (fetchAll_result_ok w.userRepoPages.rest w.userRepoPages.first [] hp hq)]
    simp [NetM.pure, PageChain.allItems]
  · intro c pg x hpg hx
    simp only [PageChain.allItems]
    exact List.mem_append.mpr (Or.inr
      (List.mem_flatten.mpr ⟨pg.items, List.mem_map_of_mem Page.items hpg, hx⟩))
  · intro c pg x hpg hx
    simp only [PageChain.allItems]
    exact List.mem_append.mpr (Or.inr
      (List.mem_flatten.mpr ⟨pg.items, List.mem_map_of_mem Page.items hpg, hx⟩))

/-- Witness for the collector-completeness theorem on a two-page
member listing. -/
theorem repo_member_collectors_complete_witness :
    (get_org_members twoPageMemberWorld).result = .ok (.list [⟨"ann"⟩, ⟨"bob"⟩]) :=
  (repo_member_collectors_complete twoPageMemberWorld rfl).1 rfl rfl (by decide)

/-- Claim C4 counterexample: the admin code-owner collector issues a
single request and returns only the first page, so an admin on the
second page is missing from the returned list. -/
theorem codeowners_collector_misses_later_pages :
    (get_org_codeowners twoPageAdminWorld).result = .ok (.list ["ann"]) ∧
    (⟨"bob"⟩ : Member) ∈ twoPageAdminWorld.adminPages.allItems ∧
    "bob" ∉ ["ann"] ∧
    (get_org_codeowners twoPageAdminWorld).calls = 2 :=
  ⟨rfl, by decide, by decide, rfl⟩

theorem countKey_eq_countP (d : List (String × α)) (k : String) :
    countKey d k = (d.map Prod.fst).countP (fun x => x == k) := by
  rw [List.countP_map, List.countP_eq_length_filter]
  rfl

theorem map_replace_keys (d : List (String × α)) (k : String) (v : α) :
    (d.map (fun kv => if kv.1 == k then (k, v) else kv)).map Prod.fst = d.map Prod.fst := by
  induction d with
  | nil => rfl
  | cons kv tl ih =>
    simp only [List.map_cons, ih]
    congr 1
    by_cases hkv : (kv.1 == k) = true
    · simp [hkv, (beq_iff_eq.mp hkv).symm]
    · simp [hkv]

theorem any_key_iff (d : List (String × α)) (k : String) :
    d.any (fun kv => kv.1 == k) = true ↔ 1 ≤ countKey d k := by
  rw [List.any_eq_true]
  constructor
  · rintro ⟨kv, hm, hp⟩
    have hmem : kv ∈ d.filter (fun kv => kv.1 == k) := List.mem_filter.mpr ⟨hm, hp⟩
    have := List.length_pos.mpr (List.ne_nil_of_mem hmem)
    simpa [countKey] using this
  · intro h
    have hne : d.filter (fun kv => kv.1 == k) ≠ [] := by
      intro hh
      simp [countKey, hh] at h
    obtain ⟨kv, hkv⟩ := List.exists_mem_of_ne_nil _ hne
    exact ⟨kv, (List.mem_filter.mp hkv).1, (List.mem_filter.mp hkv).2⟩

theorem countKey_append_single (d : List (String × α)) (k k' : String) (v : α) :
    countKey (d ++ [(k, v)]) k' = countKey d k' + if (k == k') = true then 1 else 0 := by
  simp only [countKey, List.filter_append, List.length_append]
  by_cases h : (k == k') = true <;> simp [h]

theorem countKey_dictInsert_pos (d : List (String × α)) (k : String) (v : α)
    (h : d.any (fun kv => kv.1 == k) = true) (k' : String) :
    countKey (dictInsert d k v) k' = countKey d k' := by
  simp only [dictInsert]
  rw [if_pos h, countKey_eq_countP, map_replace_keys, ← countKey_eq_countP]

theorem countKey_dictInsert_neg (d : List (String × α)) (k : String) (v : α)
    (h : ¬ d.any (fun kv => kv.1 == k) = true) (k' : String) :
    countKey (dictInsert d k v) k' = countKey d k' + if (k == k') = true then 1 else 0 := by
  simp only [dictInsert]
  rw [if_neg h, countKey_append_single]

theorem countKey_dictInsert_self (d : List (String × α)) (k : String) (v : α) :
    1 ≤ countKey (dictInsert d k v) k := by
  by_cases h : d.any (fun kv => kv.1 == k) = true
  · rw [countKey_dictInsert_pos d k v h]
    exact (any_key_iff d k).mp h
  · rw [countKey_dictInsert_neg d k v h]
    simp

theorem countKey_dictInsert_le (d : List (String × α)) (k : String) (v : α)
    (hd : ∀ k0, countKey d k0 ≤ 1) (k' : String) :
    countKey (dictInsert d k v) k' ≤ 1 := by
  by_cases h : d.any (fun kv => kv.1 == k) = true
  · rw [countKey_dictInsert_pos d k v h]
    exact hd k'
  · rw [countKey_dictInsert_neg d k v h]
    by_cases hk : (k == k') = true
    · have h0 : countKey d k = 0 := by
        rcases Nat.eq_zero_or_pos (countKey d k) with h0 | h0
        · exact h0
        · exact absurd ((any_key_iff d k).mpr h0) h
      rw [← beq_iff_eq.mp hk, h0]
      simp [hk]
    · simp [hk]
      exact hd k'

theorem countKey_dictInsert_mono (d : List (String × α)) (k : String) (v : α)
    (k' : String) (h1 : 1 ≤ countKey d k') :
    1 ≤ countKey (dictInsert d k v) k' := by
  by_cases h : d.any (fun kv => kv.1 == k) = true
  · rw [countKey_dictInsert_pos d k v h]
    exact h1
  · rw [countKey_dictInsert_neg d k v h]
    omega

theorem buildSummary_exactly_one {β : Type} (check : String → NetM β) :
    ∀ (rs : List Repo) (acc res : List (String × β)),
      (buildSummary check rs acc).result = .ok res →
      (∀ k, countKey acc k ≤ 1) →
      ((∀ k, countKey res k ≤ 1) ∧
       (∀ k, 1 ≤ countKey acc k → 1 ≤ countKey res k) ∧
       (∀ r ∈ rs, 1 ≤ countKey res r.name)) := by
  intro rs
  induction rs with
  | nil =>
    intro acc res hres hacc
    have : acc = res := by simpa [buildSummary, NetM.pure] using hres
    subst this
    exact ⟨hacc, fun _ h => h, by simp⟩
  | cons r rest ih =>
    intro acc res hres hacc
    simp only [buildSummary] at hres
    rcases hcheck : (check r.name).result with e | f
    · rw [NetM.result_bind_error hcheck] at hres
      simp at hres
    · rw [NetM.result_bind_ok hcheck] at hres
      have hacc' : ∀ k, countKey (dictInsert acc r.name f) k ≤ 1 :=
        countKey_dictInsert_le acc r.name f hacc
      obtain ⟨b1, b2, b3⟩ := ih (dictInsert acc r.name f) res hres hacc'
      refine ⟨b1, fun k hk => b2 k (countKey_dictInsert_mono acc r.name f k hk), ?_⟩
      intro r' hr'
      rcases List.mem_cons.mp hr' with hr' | hr'
      · subst hr'
        exact b2 r'.name (countKey_dictInsert_self acc r'.name f)
      · exact b3 r' hr'

/-- Claim C8 (confirmed).  Whenever both finding maps are built (the
run produces an audit result), every repository of the collected
repository set has exactly one CODEOWNERS finding and exactly one
branch-protection finding — never absent, never duplicated — even
when the underlying check reported a failure state. -/
theorem findings_exactly_one_per_repo (w : World) (rs : List Repo)
    (cs : List (String × (String × String))) (bps : List (String × List (String × PyVal)))
    (hcs : (buildCodeownersStatus w rs).result = .ok cs)
    (hbps : (buildProtectionSummary w rs).result = .ok bps) :
    ∀ r ∈ rs, countKey cs r.name = 1 ∧ countKey bps r.name = 1 := by
  intro r hr
  obtain ⟨b1, _, b3⟩ := buildSummary_exactly_one _ rs [] cs hcs (by simp [countKey])
  obtain ⟨c1, _, c3⟩ := buildSummary_exactly_one _ rs [] bps hbps (by simp [countKey])
  exact ⟨Nat.le_antisymm (b1 r.name) (b3 r hr), Nat.le_antisymm (c1 r.name) (c3 r hr)⟩

/-- Witness for the exactly-one-finding theorem on a concrete
two-repository world. -/
theorem findings_exactly_one_per_repo_witness :
    countKey [("r1", ("main", "Not Set (File Missing)")),
              ("r2", ("main", "Not Set (File Missing)"))] "r1" = 1 ∧
    countKey [("r1", [("main", PyVal.str "No Protection")]),
              ("r2", [("main", PyVal.str "No Protection")])] "r1" = 1 :=
  findings_exactly_one_per_repo twoRepoWorld [⟨"r1"⟩, ⟨"r2"⟩]
    [("r1", ("main", "Not Set (File Missing)")), ("r2", ("main", "Not Set (File Missing)"))]
    [("r1", [("main", PyVal.str "No Protection")]), ("r2", [("main", PyVal.str "No Protection")])]
    rfl rfl ⟨"r1"⟩ (by decide)

theorem dictGet_single_ne (branch : String) (v : PyVal) (k : String) (dflt : PyVal)
    (h : branch ≠ k) : dictGet [(branch, v)] k dflt = dflt := by
  simp [dictGet, List.find?, beq_eq_false_iff_ne.mpr h]

theorem protectionRows_sentinel (repo branch : String) (v : PyVal)
    (h1 : branch ≠ "PR Approvals Required") (h2 : branch ≠ "Signed Commits")
    (h3 : branch ≠ "Enforce Admins") (h4 : branch ≠ "Allow Force Pushes")
    (h5 : branch ≠ "Allow Deletions") (h6 : branch ≠ "Required Conversation Resolution") :
    protectionRows repo [(branch, v)] = .ok
      [⟨repo, "PR Approvals Required", false, "0", "2+"⟩,
       ⟨repo, "Signed Commits", false, "Disabled", "Enabled"⟩,
       ⟨repo, "Enforce Admins", false, "Disabled", "Enabled"⟩,
       ⟨repo, "Allow Force Pushes", false, "Disabled", "Disabled"⟩,
       ⟨repo, "Allow Deletions", false, "Disabled", "Disabled"⟩,
       ⟨repo, "Required Conversation Resolution", false, "Disabled", "Enabled"⟩] := by
  have e1 := dictGet_single_ne branch v "PR Approvals Required" (.int 0) h1
  have e2 := dictGet_single_ne branch v "Signed Commits" (.bool false) h2
  have e3 := dictGet_single_ne branch v "Enforce Admins" (.bool false) h3
  have e4 := dictGet_single_ne branch v "Allow Force Pushes" (.bool false) h4
  have e5 := dictGet_single_ne branch v "Allow Deletions" (.bool false) h5
  have e6 := dictGet_single_ne branch v "Required Conversation Resolution" (.bool false) h6
  simp only [protectionRows, checksFor, e1, e2, e3, e4, e5, e6]
  rfl

/-- Claim C7 (corrected).  For a repository whose CODEOWNERS file is
missing at every candidate and whose default branch has no protection
rule, the report shows the CODEOWNERS row with observed value
`Not Set (File Missing)` classified fail and every protection row
classified fail — but the observed values of the protection rows are
the defaulted `0` and `Disabled`, not the `No Protection` state,
which never appears as an observed value (see the counterexample
theorem). -/
theorem missing_codeowners_no_protection_rows (repo branch : String)
    (h : branch ∉ checkConfigKeys) :
    generate_html_report (.list []) (.list [])
        [(repo, (branch, "Not Set (File Missing)"))]
        [(repo, [(branch, PyVal.str "No Protection")])] =
      .ok ⟨1, 0, 0, [repo], [], [],
        [⟨repo, "PR Approvals Required", false, "0", "2+"⟩,
         ⟨repo, "Signed Commits", false, "Disabled", "Enabled"⟩,
         ⟨repo, "Enforce Admins", false, "Disabled", "Enabled"⟩,
         ⟨repo, "Allow Force Pushes", false, "Disabled", "Disabled"⟩,
         ⟨repo, "Allow Deletions", false, "Disabled", "Disabled"⟩,
         ⟨repo, "Required Conversation Resolution", false, "Disabled", "Enabled"⟩,
         ⟨repo, "CODEOWNERS Status", false, "Not Set (File Missing)", "Set and Valid"⟩]⟩ := by
  simp only [checkConfigKeys, List.mem_cons, List.not_mem_nil, or_false, not_or] at h
  obtain ⟨h1, h2, h3, h4, h5, h6⟩ := h
  simp only [generate_html_report, memberItems, List.mapM_cons, List.mapM_nil,
    protectionRows_sentinel repo branch (PyVal.str "No Protection") h1 h2 h3 h4 h5 h6]
  rfl

/-- Witness for the scenario-rows theorem at the concrete repository
`repo2` with default branch `main`. -/
theorem missing_codeowners_no_protection_rows_witness :
    generate_html_report (.list []) (.list [])
        [("repo2", ("main", "Not Set (File Missing)"))]
        [("repo2", [("main", PyVal.str "No Protection")])] =
      .ok ⟨1, 0, 0, ["repo2"], [], [], scenarioRows⟩ :=
  missing_codeowners_no_protection_rows "repo2" "main" (by decide)

/-- Claim C7 counterexample: in the rendered rows of that scenario the
text `No Protection` never appears as an observed value — the
protection rows show the defaulted `0` / `Disabled` instead (all
classified fail). -/
theorem no_protection_not_an_observed_value :
    scenarioReport = .ok ⟨1, 0, 0, ["repo2"], [], [], scenarioRows⟩ ∧
    "No Protection" ∉ scenarioRows.map Row.current ∧
    (∀ r ∈ scenarioRows, r.passed = false) :=
  ⟨rfl, by decide, by decide⟩

theorem generate_members_pd_typeError (co : OwnersVal)
    (cs : List (String × (String × String)))
    (bps : List (String × List (String × PyVal))) :
    generate_html_report (.str "Permission Denied") co cs bps = .error .typeError := by
  simp only [generate_html_report, memberItems]
  rfl

theorem mainFlow_members_pd_raises (w : World) (rs : List Repo)
    (hrepos : (get_org_repos w).result = .ok (.list rs))
    (hmem : (get_org_members w).result = .ok (.str "Permission Denied")) :
    ∃ e, (mainFlow w).result = .error e := by
  simp only [mainFlow, NetM.result_bind_ok hrepos, NetM.result_bind_ok hmem]
  rcases hco : (get_org_codeowners w).result with e | co
  · rw [NetM.result_bind_error hco]
    exact ⟨e, rfl⟩
  · rw [NetM.result_bind_ok hco]
    rcases hcs : (buildCodeownersStatus w rs).result with e | cs
    · rw [NetM.result_bind_error hcs]
      exact ⟨e, rfl⟩
    · rw [NetM.result_bind_ok hcs]
      rcases hbps : (buildProtectionSummary w rs).result with e | bps
      · rw [NetM.result_bind_error hbps]
        exact ⟨e, rfl⟩
      · rw [NetM.result_bind_ok hbps]
        rw [generate_members_pd_typeError co cs bps]
        exact ⟨.typeError, rfl⟩

theorem runProgram_crash_fields (w : World) (htok : tokenOk w.token = true)
    (he : ∃ e, (mainFlow w).result = .error e) :
    (runProgram w).crashed = true ∧ (runProgram w).report = none ∧
      (runProgram w).exitCode = 1 ∧ (runProgram w).printed = [] := by
  obtain ⟨e, he⟩ := he
  have hr : runProgram w =
      { exitCode := 1, report := none, printed := [], crashed := true,
        networkCalls := (mainFlow w).calls } := by
    simp [runProgram, htok, he]
  exact ⟨by rw [hr], by rw [hr], by rw [hr], by rw [hr]⟩

/-- Claim C5 (corrected).  A denial on the identity lookup or the
repository collection is reported and produces no report artifact,
but the process then falls off the end of `__main__` and exits with
code 0, not a non-zero code; a denial on the membership collection
after a successful repository collection is not reported as a denial
at all — the run ends in an uncaught exception (non-zero exit, no
artifact, nothing printed). -/
theorem denied_collection_behavior (w : World) (htok : tokenOk w.token = true) :
    ((get_org_repos w).result = .ok (.str "Permission Denied") →
      (runProgram w).printed = ["Error: Access to repositories denied."] ∧
      (runProgram w).report = none ∧ (runProgram w).exitCode = 0 ∧
      (runProgram w).crashed = false) ∧
    (∀ rs : List Repo,
      (get_org_repos w).result = .ok (.list rs) →
      (get_org_members w).result = .ok (.str "Permission Denied") →
      (runProgram w).crashed = true ∧ (runProgram w).report = none ∧
        (runProgram w).exitCode = 1 ∧ (runProgram w).printed = []) := by
  constructor
  · intro hrepos
    have hmain : (mainFlow w).result = .ok .denied := by
      simp only [mainFlow, NetM.result_bind_ok hrepos]
      rfl
    have hr : runProgram w =
        { exitCode := 0, report := none,
          printed := ["Error: Access to repositories denied."], crashed := false,
          networkCalls := (mainFlow w).calls } := by
      simp [runProgram, htok, hmain]
    exact ⟨by rw [hr], by rw [hr], by rw [hr], by rw [hr]⟩
  · intro rs hrepos hmem
    exact runProgram_crash_fields w htok (mainFlow_members_pd_raises w rs hrepos hmem)

/-- Witness for the denied-collection theorem: the world whose
identity lookup answers 403. -/
theorem denied_collection_behavior_witness :
    (runProgram deniedReposWorld).printed = ["Error: Access to repositories denied."] ∧
    (runProgram deniedReposWorld).report = none ∧
    (runProgram deniedReposWorld).exitCode = 0 ∧
    (runProgram deniedReposWorld).crashed = false :=
  (denied_collection_behavior deniedReposWorld rfl).1 rfl

/-- Claim C5 counterexample: a repository-collection denial is reported
but the process exits 0 (the claim requires non-zero), and a
membership-collection denial crashes unreported. -/
theorem denied_collection_exit_counterexample :
    (runProgram deniedReposWorld).printed = ["Error: Access to repositories denied."] ∧
    (runProgram deniedReposWorld).report = none ∧
    (runProgram deniedReposWorld).exitCode = 0 ∧
    (runProgram deniedReposWorld).crashed = false ∧
    (runProgram deniedMembersWorld).printed = [] ∧
    (runProgram deniedMembersWorld).report = none ∧
    (runProgram deniedMembersWorld).crashed = true :=
  ⟨rfl, rfl, rfl, rfl, rfl, rfl, rfl⟩

/-- Claim C9 (confirmed).  Without the credential environment variable
the process prints the configuration-error messages and exits with
code 1 before any network call: zero requests are made. -/
theorem missing_token_exits_before_network (w : World) (h : w.token = none) :
    runProgram w = { exitCode := 1, report := none, printed := tokenErrorLines,
                     crashed := false, networkCalls := 0 } ∧
    (runProgram w).networkCalls = 0 ∧ (runProgram w).exitCode = 1 := by
  have ht : tokenOk w.token = false := by rw [h]; rfl
  have hr : runProgram w =
      { exitCode := 1, report := none, printed := tokenErrorLines,
        crashed := false, networkCalls := 0 } := by
    simp [runProgram, ht]
  exact ⟨hr, by rw [hr], by rw [hr]⟩

/-- Witness for the missing-credential theorem on a concrete world
with the variable unset. -/
theorem missing_token_exits_before_network_witness :
    runProgram noTokenWorld = { exitCode := 1, report := none, printed := tokenErrorLines,
                                crashed := false, networkCalls := 0 } :=
  (missing_token_exits_before_network noTokenWorld rfl).1

/-- Claim C10 (confirmed).  When repository collection succeeds but the
membership collection returns the `Permission Denied` string, the
driver still invokes report generation with that string: the member
total becomes its character count 17, iterating it and indexing each
character with `login` raises a `TypeError`, and the run ends in an
uncaught exception — no report and no clean access-denied exit. -/
theorem members_permission_denied_crashes_report :
    pyLenMembers (.str "Permission Denied") = 17 ∧
    memberItems (.str "Permission Denied") = .error .typeError ∧
    (∀ (co : OwnersVal) (cs : List (String × (String × String)))
       (bps : List (String × List (String × PyVal))),
      generate_html_report (.str "Permission Denied") co cs bps = .error .typeError) ∧
    (∀ (w : World) (rs : List Repo),
      tokenOk w.token = true →
      (get_org_repos w).result = .ok (.list rs) →
      (get_org_members w).result = .ok (.str "Permission Denied") →
      (runProgram w).crashed = true ∧ (runProgram w).report = none ∧
        (runProgram w).exitCode = 1 ∧ (runProgram w).printed = []) := by
  refine ⟨rfl, rfl, generate_members_pd_typeError, fun w rs htok hrepos hmem => ?_⟩
  exact runProgram_crash_fields w htok (mainFlow_members_pd_raises w rs hrepos hmem)

/-- Witness for the membership-denial crash theorem on the concrete
world whose members listing answers 403. -/
theorem members_permission_denied_crashes_report_witness :
    (runProgram deniedMembersWorld).crashed = true ∧
    (runProgram deniedMembersWorld).report = none ∧
    (runProgram deniedMembersWorld).exitCode = 1 ∧
    (runProgram deniedMembersWorld).printed = [] :=
  members_permission_denied_crashes_report.2.2.2 deniedMembersWorld [⟨"repo1"⟩] rfl rfl rfl
